import Mathlib

/-!
Shallow embedding of the mesonwrap repository:
`src/wrapweb/__init__.py` (Flask route handlers) and
`src/tools/repoinit.py` (the RepoBuilder CLI tool).

Route handlers are modelled as pure functions from their inputs and from
the behaviour of the external collaborators (`WrapDatabase`, `WrapUpdater`,
GitHub, git) to a response value paired with an explicit trace of the
side effects performed.  Python exceptions are modelled with `Except`.
-/

namespace Mesonwrap

/-- Python exceptions that the modelled code can raise. -/
inductive PyExc where
  | valueError (msg : String)
  | keyError (key : String)
  | nameError (name : String)
deriving Repr, DecidableEq

/-! ## `src/wrapweb/__init__.py` -/

/-- A character matched by the character class `[a-z0-9._]` of the regular
expression used in `update_project`. -/
def nameChar (c : Char) : Bool :=
  (('a' ≤ c) && (c ≤ 'z')) || (('0' ≤ c) && (c ≤ '9')) || c == '.' || c == '_'

/-- `re.fullmatch('[a-z0-9._]+', s)` viewed as a Boolean: the whole string
consists of at least one character from the class `[a-z0-9._]`. -/
def fullmatchNameRe (s : String) : Bool :=
  !s.data.isEmpty && s.data.all nameChar

/-- A JSON response body `'output': ..., 'error': ...` together with the
HTTP status code set on it. -/
structure JsonOut where
  status : Nat
  output : String
  error : Option String
deriving Repr, DecidableEq

/-- Side effects performed by the `/update/<project>/<branch>` handler. -/
inductive UpdateEffect where
  | getUpdateDb
  | updateDb (project url branch : String)
deriving Repr, DecidableEq

/-- The behaviour of the external `WrapUpdater.update_db(project, url, branch)`
call: it either returns normally or raises some exception (any exception is
caught by the handler, so its payload is just a string). -/
def UpdaterFn : Type := String → String → String → Except String Unit

/-- `update_project(project, branch)` from `src/wrapweb/__init__.py`:
validates the project name against `[a-z0-9._]+`, then the branch name
against the same pattern, then rejects the protected branch `master`;
otherwise obtains the update database handle and calls
`update_db(project, 'https://github.com/mesonbuild/<project>.git', branch)`,
returning `'output': 'ok'` on success and a 500 error on any exception.
The returned list is the trace of collaborator effects performed. -/
def update_project (updater : UpdaterFn) (project branch : String) :
    JsonOut × List UpdateEffect :=
  if !fullmatchNameRe project then
    ({ status := 500, output := "notok", error := some "Invalid project name" }, [])
  else if !fullmatchNameRe branch then
    ({ status := 500, output := "notok", error := some "Invalid branch name" }, [])
  else if branch == "master" then
    ({ status := 500, output := "notok", error := some "No bananas for you" }, [])
  else
    let repo_url := "https://github.com/mesonbuild/" ++ project ++ ".git"
    match updater project repo_url branch with
    | .ok _ =>
        ({ status := 200, output := "ok", error := none },
         [.getUpdateDb, .updateDb project repo_url branch])
    | .error _ =>
        ({ status := 500, output := "notok", error := some "Wrap generation failed." },
         [.getUpdateDb, .updateDb project repo_url branch])

/-- One entry of the `versions` list built by `get_project_info`:
the dict `'branch': ..., 'revision': ...`. -/
structure VersionEntry where
  branch : String
  revision : Int
deriving Repr, DecidableEq

/-- The response of `get_project_info` for a named project: status code,
`output`, optional `error`, and the `versions` list. -/
structure ProjectInfoOut where
  status : Nat
  output : String
  error : Option String
  versions : List VersionEntry
deriving Repr, DecidableEq

/-- `get_project_info(project)` from `src/wrapweb/__init__.py`, for a named
project (the `project is None` case delegates to `get_projectlist` and is
not modelled).  `get_versions` is the external
`WrapDatabase.get_versions(project)` returning `(branch, revision)` pairs;
the handler answers 500 `No such project` when it returns no rows, and
otherwise builds the `versions` list by appending one entry per row. -/
def get_project_info (get_versions : String → List (String × Int))
    (project : String) : ProjectInfoOut :=
  let rows := get_versions project
  if rows.length = 0 then
    { status := 500, output := "notok", error := some "No such project", versions := [] }
  else
    let vers := rows.foldl (fun acc i => acc ++ [⟨i.1, i.2⟩]) ([] : List VersionEntry)
    { status := 200, output := "ok", error := none, versions := vers }

/-- Which of the two routes sharing the `get_wrap` handler was requested
(the handler distinguishes them with `request.path.endswith`). -/
inductive WrapRoute where
  | get_wrap
  | get_zip
deriving Repr, DecidableEq

/-- The read side of the external `WrapDatabase` used by the `get_wrap`
handler: `get_wrap` and `get_zip` lookups keyed by project, branch and
revision, returning the stored content or nothing. -/
structure QueryDb where
  wrapOf : String → String → Int → Option String
  zipOf : String → String → Int → Option String

/-- A response of the `get_wrap` handler: either the JSON error body with
its status code, or a raw `Response(result, mimetype=mtype)`. -/
inductive WrapResp where
  | jsonErr (status : Nat) (output : String) (error : String)
  | raw (content : String) (mimetype : String)
deriving Repr, DecidableEq

/-- Database lookups performed by the `get_wrap` handler. -/
inductive DbEffect where
  | lookupWrap (project branch : String) (revision : Int)
  | lookupZip (project branch : String) (revision : Int)
deriving Repr, DecidableEq

/-- `request.args[k]`: the first value bound to `k` in the query string,
raising `KeyError` when the parameter is absent. -/
def requestArg (args : List (String × String)) (k : String) :
    Except PyExc String :=
  match args.find? (fun p => p.1 == k) with
  | some p => .ok p.2
  | none => .error (.keyError k)

/-- An ASCII decimal digit. -/
def isDigitChar (c : Char) : Bool := ('0' ≤ c) && (c ≤ '9')

/-- No two consecutive underscores in the character list. -/
def noDoubleUnderscore : List Char → Bool
  | '_' :: '_' :: _ => false
  | _ :: rest => noDoubleUnderscore rest
  | [] => true

/-- A digit run acceptable to Python `int(s)` after the optional sign:
nonempty, only digits and underscores, starting and ending with a digit,
with no two consecutive underscores. -/
def validDigitRun (ds : List Char) : Bool :=
  !ds.isEmpty
    && ds.all (fun c => isDigitChar c || c == '_')
    && (match ds.head? with | some c => isDigitChar c | none => false)
    && (match ds.getLast? with | some c => isDigitChar c | none => false)
    && noDoubleUnderscore ds

/-- The value of a digit list read in base 10. -/
def digitsToNat (ds : List Char) : Nat :=
  ds.foldl (fun a c => a * 10 + (c.toNat - '0'.toNat)) 0

/-- Whitespace stripping from both ends, as Python `str.strip()` applied
before integer conversion. -/
def pyStrip (cs : List Char) : List Char :=
  ((cs.dropWhile Char.isWhitespace).reverse.dropWhile Char.isWhitespace).reverse

/-- Python `int(s)` for base 10: strips surrounding whitespace, accepts an
optional sign followed by a digit run (underscores allowed between
digits), and raises `ValueError` otherwise. -/
def pyInt (s : String) : Except PyExc Int :=
  let cs := pyStrip s.data
  let signAndDigits : Bool × List Char :=
    match cs with
    | '-' :: rest => (true, rest)
    | '+' :: rest => (false, rest)
    | _ => (false, cs)
  if validDigitRun signAndDigits.2 then
    let n := digitsToNat (signAndDigits.2.filter isDigitChar)
    .ok (if signAndDigits.1 then -(n : Int) else (n : Int))
  else
    .error (.valueError ("invalid literal for int with base 10: " ++ s))

/-- `get_wrap(project)` from `src/wrapweb/__init__.py`, serving both
`/projects/<project>/get_wrap` and `/projects/<project>/get_zip`.
It reads `request.args['branch']`, converts `request.args['revision']`
with `int`, performs the lookup matching the requested route, and answers
either with the raw content under the route's MIME type or with the 500
JSON error `No such entry`.  An uncaught Python exception surfaces as
`Except.error`; the effect trace lists the database lookups performed. -/
def get_wrap_handler (db : QueryDb) (route : WrapRoute)
    (args : List (String × String)) (project : String) :
    Except PyExc (WrapResp × List DbEffect) :=
  match requestArg args "branch" with
  | .error e => .error e
  | .ok branch =>
    match requestArg args "revision" with
    | .error e => .error e
    | .ok revStr =>
      match pyInt revStr with
      | .error e => .error e
      | .ok revision =>
        let lookup : Option String × String × DbEffect :=
          match route with
          | .get_wrap =>
              (db.wrapOf project branch revision, "text/plain",
               .lookupWrap project branch revision)
          | .get_zip =>
              (db.zipOf project branch revision, "application/zip",
               .lookupZip project branch revision)
        match lookup.1 with
        | none => .ok (.jsonErr 500 "notok" "No such entry", [lookup.2.2])
        | some content => .ok (.raw content lookup.2.1, [lookup.2.2])

/-- The exception class of a `PyExc` is `KeyError` or `ValueError`
(and not, for example, `NameError`). -/
def isKeyOrValueError : PyExc → Bool
  | .keyError _ => true
  | .valueError _ => true
  | .nameError _ => false

end Mesonwrap

namespace Mesonwrap

/-- Appending through a left fold builds exactly the mapped list. -/
lemma foldl_append_eq_map {α β : Type} (f : α → β) (l : List α) :
    ∀ acc : List β, l.foldl (fun a x => a ++ [f x]) acc = acc ++ l.map f := by
  induction l with
  | nil => intro acc; simp
  | cons x xs ih => intro acc; simp [List.foldl_cons, ih]

/-- The protected branch name `master` does match `[a-z0-9._]+`. -/
lemma fullmatchNameRe_master : fullmatchNameRe "master" = true := by decide

/-- C1: an invalid project name is rejected with 500 and the error
`Invalid project name`, with an empty effect trace (no updater handle,
no external call), independently of the updater behaviour. -/
theorem update_project_invalid_name (updater updater2 : UpdaterFn)
    (project branch : String) (h : fullmatchNameRe project = false) :
    update_project updater project branch =
      ({ status := 500, output := "notok", error := some "Invalid project name" }, []) ∧
    update_project updater project branch = update_project updater2 project branch := by
  constructor <;> simp [update_project, h]

/-- Witness for C1 at the concrete invalid project name `Bad Name!`. -/
theorem update_project_invalid_name_witness :
    update_project (fun _ _ _ => .ok ()) "Bad Name!" "somebranch" =
      ({ status := 500, output := "notok", error := some "Invalid project name" }, []) :=
  (update_project_invalid_name (fun _ _ _ => .ok ()) (fun _ _ _ => .error "boom")
    "Bad Name!" "somebranch" (by decide)).1

/-- C2: for the branch `master` the update route always answers with
status 500 and performs no collaborator effect, whatever the project name
and whatever the updater would do. -/
theorem update_project_master_rejected (updater updater2 : UpdaterFn)
    (project : String) :
    (update_project updater project "master").1.status = 500 ∧
    (update_project updater project "master").2 = [] ∧
    update_project updater project "master" = update_project updater2 project "master" := by
  by_cases h : fullmatchNameRe project <;>
    simp [update_project, h, fullmatchNameRe_master]

end Mesonwrap

namespace Mesonwrap

/-- A failing `requestArg` always raises the `KeyError` for the looked-up
parameter name. -/
lemma requestArg_error (args : List (String × String)) (k : String) (e : PyExc)
    (h : requestArg args k = .error e) : e = .keyError k := by
  unfold requestArg at h
  cases hf : List.find? (fun p => p.1 == k) args with
  | none => rw [hf] at h; exact (Except.error.injEq _ _).mp h.symm
  | some p => rw [hf] at h; cases h

/-- Looking up `branch` in the two-parameter query string finds the first
binding. -/
lemma requestArg_branch (b r : String) :
    requestArg [("branch", b), ("revision", r)] "branch" = .ok b := rfl

/-- Looking up `revision` in the two-parameter query string finds the
second binding. -/
lemma requestArg_revision (b r : String) :
    requestArg [("branch", b), ("revision", r)] "revision" = .ok r := rfl

/-- C5: `/projects/<project>` answers 500 `No such project` exactly when
the query database reports no versions, and otherwise 200 `ok` with one
`branch`/`revision` entry per reported pair, in database order. -/
theorem get_project_info_spec (get_versions : String → List (String × Int))
    (project : String) :
    get_project_info get_versions project =
      match get_versions project with
      | [] =>
          { status := 500, output := "notok", error := some "No such project",
            versions := [] }
      | ms =>
          { status := 200, output := "ok", error := none,
            versions := ms.map (fun i => ⟨i.1, i.2⟩) } := by
  cases h : get_versions project with
  | nil => simp [get_project_info, h]
  | cons x xs =>
      simp [get_project_info, h,
        foldl_append_eq_map (fun i : String × Int => (⟨i.1, i.2⟩ : VersionEntry))]

/-- C6: with `branch=B` and a `revision` parameter that `int` parses to
`R`, the `get_wrap` route serves the stored wrap content for `(p, B, R)`
as a raw `text/plain` response when the database has an entry, and the
500 JSON error `No such entry` otherwise. -/
theorem get_wrap_spec (db : QueryDb) (project branch revStr : String) (rev : Int)
    (h : pyInt revStr = .ok rev) :
    get_wrap_handler db .get_wrap [("branch", branch), ("revision", revStr)] project =
      match db.wrapOf project branch rev with
      | some content =>
          .ok (.raw content "text/plain", [.lookupWrap project branch rev])
      | none =>
          .ok (.jsonErr 500 "notok" "No such entry", [.lookupWrap project branch rev]) := by
  simp only [get_wrap_handler, requestArg_branch, requestArg_revision, h]
  cases db.wrapOf project branch rev <;> rfl

/-- Witness for C6: a concrete database holding one wrap, queried with the
parseable revision string `7`. -/
theorem get_wrap_spec_witness :
    get_wrap_handler
        ⟨fun _ _ _ => some "wrap contents", fun _ _ _ => none⟩ .get_wrap
        [("branch", "1.0"), ("revision", "7")] "zlib" =
      .ok (.raw "wrap contents" "text/plain", [.lookupWrap "zlib" "1.0" 7]) :=
  get_wrap_spec ⟨fun _ _ _ => some "wrap contents", fun _ _ _ => none⟩
    "zlib" "1.0" "7" 7 rfl

/-- C10: when the `branch` or `revision` query parameter is missing, or
`revision` is present but `int` rejects it, the `get_wrap`/`get_zip`
handler raises an uncaught `KeyError` or `ValueError`: no JSON body is
produced and the database is never consulted (the outcome is independent
of the database). -/
theorem get_wrap_bad_args (db db2 : QueryDb) (route : WrapRoute)
    (args : List (String × String)) (project : String)
    (h : requestArg args "branch" = .error (.keyError "branch")
       ∨ requestArg args "revision" = .error (.keyError "revision")
       ∨ ∃ s m, requestArg args "revision" = .ok s ∧
           pyInt s = .error (.valueError m)) :
    (∃ e, get_wrap_handler db route args project = .error e ∧
          isKeyOrValueError e = true) ∧
    get_wrap_handler db route args project = get_wrap_handler db2 route args project := by
  rcases h with h | h | ⟨s, m, hs, hp⟩
  · refine ⟨⟨.keyError "branch", ?_, rfl⟩, ?_⟩ <;> simp [get_wrap_handler, h]
  · cases hb : requestArg args "branch" with
    | error e =>
        rcases requestArg_error args "branch" e hb with rfl
        refine ⟨⟨.keyError "branch", ?_, rfl⟩, ?_⟩ <;> simp [get_wrap_handler, hb]
    | ok b =>
        refine ⟨⟨.keyError "revision", ?_, rfl⟩, ?_⟩ <;>
          simp [get_wrap_handler, hb, h]
  · cases hb : requestArg args "branch" with
    | error e =>
        rcases requestArg_error args "branch" e hb with rfl
        refine ⟨⟨.keyError "branch", ?_, rfl⟩, ?_⟩ <;> simp [get_wrap_handler, hb]
    | ok b =>
        refine ⟨⟨.valueError m, ?_, rfl⟩, ?_⟩ <;>
          simp [get_wrap_handler, hb, hs, hp]

/-- Witness for C10: a request with a `branch` but a non-numeric
`revision=abc` raises against a database that does hold an entry. -/
theorem get_wrap_bad_args_witness :
    (∃ e, get_wrap_handler ⟨fun _ _ _ => some "w", fun _ _ _ => some "z"⟩
            .get_wrap [("branch", "1.0"), ("revision", "abc")] "zlib" = .error e ∧
          isKeyOrValueError e = true) ∧
    get_wrap_handler ⟨fun _ _ _ => some "w", fun _ _ _ => some "z"⟩
        .get_wrap [("branch", "1.0"), ("revision", "abc")] "zlib" =
      get_wrap_handler ⟨fun _ _ _ => none, fun _ _ _ => none⟩
        .get_wrap [("branch", "1.0"), ("revision", "abc")] "zlib" :=
  get_wrap_bad_args ⟨fun _ _ _ => some "w", fun _ _ _ => some "z"⟩
    ⟨fun _ _ _ => none, fun _ _ _ => none⟩ .get_wrap
    [("branch", "1.0"), ("revision", "abc")] "zlib"
    (Or.inr (Or.inr ⟨"abc", "invalid literal for int with base 10: abc",
      rfl, rfl⟩))

end Mesonwrap

namespace Mesonwrap

/-! ## `src/tools/repoinit.py` -/

/-- Side effects performed by `RepoBuilder` methods: GitHub API calls,
local git operations, file writes and network downloads. -/
inductive RepoEffect where
  | githubConnect
  | githubCreateRepo (organization : Option String) (name description homepage : String)
  | gitInit
  | writeFile (path content : String)
  | indexAdd (path : String)
  | commit (message : String)
  | createRemote (name url : String)
  | push (ref : String)
  | download (url : String)
  | createHead (version : String) (base : Option String)
  | headReset
deriving Repr, DecidableEq

/-- The effects performed before a result was produced, together with the
result: `Except.error` models an uncaught Python exception. -/
structure RunResult (α : Type) where
  trace : List RepoEffect
  result : Except PyExc α

/-- The `readme` template of `repoinit.py` with `reponame` substituted. -/
def readme (reponame : String) : String :=
  "This repository contains a Meson build definition for project " ++ reponame ++
    ".\n\nFor more information please see http://mesonbuild.com.\n"

/-- The `mit_license` template of `repoinit.py` with `year` substituted. -/
def mit_license (year : String) : String :=
  "Copyright (c) " ++ year ++ " The Meson development team\n\n" ++
  "Permission is hereby granted, free of charge, to any person obtaining a copy\n" ++
  "of this software and associated documentation files (the \"Software\"), to deal\n" ++
  "in the Software without restriction, including without limitation the rights\n" ++
  "to use, copy, modify, merge, publish, distribute, sublicense, and/or sell\n" ++
  "copies of the Software, and to permit persons to whom the Software is\n" ++
  "furnished to do so, subject to the following conditions:\n\n" ++
  "The above copyright notice and this permission notice shall be included in all\n" ++
  "copies or substantial portions of the Software.\n\n" ++
  "THE SOFTWARE IS PROVIDED \"AS IS\", WITHOUT WARRANTY OF ANY KIND, EXPRESS OR\n" ++
  "IMPLIED, INCLUDING BUT NOT LIMITED TO THE WARRANTIES OF MERCHANTABILITY,\n" ++
  "FITNESS FOR A PARTICULAR PURPOSE AND NONINFRINGEMENT. IN NO EVENT SHALL THE\n" ++
  "AUTHORS OR COPYRIGHT HOLDERS BE LIABLE FOR ANY CLAIM, DAMAGES OR OTHER\n" ++
  "LIABILITY, WHETHER IN AN ACTION OF CONTRACT, TORT OR OTHERWISE, ARISING FROM,\n" ++
  "OUT OF OR IN CONNECTION WITH THE SOFTWARE OR THE USE OR OTHER DEALINGS IN THE\n" ++
  "SOFTWARE.\n"

/-- The `upstream_templ` template of `repoinit.py` with its four `%s`
fields substituted, in the order they are passed in `create_version`. -/
def upstream_templ (directory source_url source_filename source_hash : String) : String :=
  "[wrap-file]\ndirectory = " ++ directory ++ "\n\nsource_url = " ++ source_url ++
    "\nsource_filename = " ++ source_filename ++ "\nsource_hash = " ++ source_hash ++ "\n"

namespace RepoBuilder

/-- `RepoBuilder.__init__(name, path, homepage, organization)`.
`pathIsGitRepo` tells whether `git.Repo(path)` succeeds; on failure the
constructor requires a homepage (else `ValueError`), then connects to
GitHub, creates the remote repository, initialises a local one, writes and
stages `readme.txt` and `LICENSE.build` (staged when the `GitFile` handle
from `self.open` closes), commits, creates the `origin` remote and pushes
the current head (named `master` by `git init`).  `year` stands for
`datetime.datetime.now().year`. -/
def init (name : String) (pathIsGitRepo : Bool) (homepage : Option String)
    (organization : Option String) (year : String) : RunResult Unit :=
  if pathIsGitRepo then
    { trace := [], result := .ok () }
  else
    match homepage with
    | none => { trace := [], result := .error (.valueError "homepage is required") }
    | some hp =>
        let description := "Meson build definitions for " ++ name
        { trace :=
            [.githubConnect,
             .githubCreateRepo organization name description hp,
             .gitInit,
             .writeFile "readme.txt" (readme name),
             .indexAdd "readme.txt",
             .writeFile "LICENSE.build" (mit_license year),
             .indexAdd "LICENSE.build",
             .commit ("Create repository for project " ++ name),
             .createRemote "origin" "ssh_url",
             .push "master"],
          result := .ok () }

/-- `RepoBuilder._get_hash(url)`: its body opens `zipurl`, a name that is
neither a parameter nor a global of the module, so evaluating it raises
`NameError` before any request is issued (the `url` parameter is never
read). -/
def get_hash (url : String) : RunResult String :=
  { trace := [], result := .error (.nameError "zipurl") }

/-- `RepoBuilder.create_version(version, zipurl, filename, directory,
ziphash=None, base=None)`: when `ziphash` is absent it is computed by
`_get_hash(zipurl)` (whose exception propagates); then the head is moved
to a branch `version` created from `base`, the working tree is reset, and
`upstream.wrap` is written with the four template fields and staged — once
by the closing `GitFile` handle and once by the explicit `index.add`.
No commit and no push are performed. -/
def create_version (version zipurl filename directory : String)
    (ziphash : Option String) (base : Option String) : RunResult Unit :=
  let hashed : RunResult String :=
    match ziphash with
    | none => get_hash zipurl
    | some h => { trace := [], result := .ok h }
  match hashed.result with
  | .error e => { trace := hashed.trace, result := .error e }
  | .ok h =>
      { trace := hashed.trace ++
          [.createHead version base,
           .headReset,
           .writeFile "upstream.wrap" (upstream_templ directory zipurl filename h),
           .indexAdd "upstream.wrap",
           .indexAdd "upstream.wrap"],
        result := .ok () }

end RepoBuilder

/-- Whether a repo effect is a network download. -/
def RepoEffect.isDownload : RepoEffect → Bool
  | .download _ => true
  | _ => false

/-- Whether a repo effect is a file write. -/
def RepoEffect.isWriteFile : RepoEffect → Bool
  | .writeFile _ _ => true
  | _ => false

/-- Whether a repo effect is a git commit. -/
def RepoEffect.isCommit : RepoEffect → Bool
  | .commit _ => true
  | _ => false

/-- Whether a repo effect is a push to the remote. -/
def RepoEffect.isPush : RepoEffect → Bool
  | .push _ => true
  | _ => false

end Mesonwrap

namespace Mesonwrap

/-- C8: for a valid project and a valid non-`master` branch, the update
route calls the updater on the canonical clone URL
`https://github.com/mesonbuild/<project>.git` and answers 200 `ok` when
the call returns, or 500 `Wrap generation failed.` when it raises. -/
theorem update_project_valid (updater : UpdaterFn) (project branch : String)
    (h1 : fullmatchNameRe project = true) (h2 : fullmatchNameRe branch = true)
    (h3 : branch ≠ "master") :
    update_project updater project branch =
      match updater project ("https://github.com/mesonbuild/" ++ project ++ ".git") branch with
      | .ok _ =>
          ({ status := 200, output := "ok", error := none },
           [.getUpdateDb,
            .updateDb project ("https://github.com/mesonbuild/" ++ project ++ ".git") branch])
      | .error _ =>
          ({ status := 500, output := "notok", error := some "Wrap generation failed." },
           [.getUpdateDb,
            .updateDb project ("https://github.com/mesonbuild/" ++ project ++ ".git") branch]) := by
  have hb : (branch == "master") = false := by
    simpa using h3
  simp only [update_project, h1, h2, hb, Bool.not_true, Bool.false_eq_true, if_false]

/-- Witness for C8 at the valid project `zlib` and branch `1.0` with an
updater that succeeds. -/
theorem update_project_valid_witness :
    update_project (fun _ _ _ => .ok ()) "zlib" "1.0" =
      ({ status := 200, output := "ok", error := none },
       [.getUpdateDb,
        .updateDb "zlib" ("https://github.com/mesonbuild/" ++ "zlib" ++ ".git") "1.0"]) :=
  update_project_valid (fun _ _ _ => .ok ()) "zlib" "1.0" (by decide) (by decide) (by decide)

/-- C3: `create_version` with an explicit `ziphash` performs no download
(the trace holds no download effect), and writes `upstream.wrap` with the
supplied hash placed verbatim in the `source_hash` field. -/
theorem create_version_with_hash (version zipurl filename directory hash : String)
    (base : Option String) :
    ((RepoBuilder.create_version version zipurl filename directory (some hash) base).trace.all
        (fun e => ! e.isDownload) = true) ∧
    RepoEffect.writeFile "upstream.wrap" (upstream_templ directory zipurl filename hash) ∈
      (RepoBuilder.create_version version zipurl filename directory (some hash) base).trace := by
  constructor
  · simp [RepoBuilder.create_version, RepoEffect.isDownload]
  · simp [RepoBuilder.create_version]

/-- C4: constructing a `RepoBuilder` on a path that is not a git
repository with no homepage raises `ValueError` with an empty effect
trace: no GitHub client, no remote repository creation, no push. -/
theorem repoBuilder_init_no_homepage (name : String) (organization : Option String)
    (year : String) :
    RepoBuilder.init name false none organization year =
      { trace := [], result := .error (.valueError "homepage is required") } := rfl

/-- C7: a completing `create_version` call was given an explicit hash,
writes exactly one file — `upstream.wrap` rendered from the four-field
template — stages `upstream.wrap`, and neither commits nor pushes. -/
theorem create_version_completes (version zipurl filename directory : String)
    (ziphash : Option String) (base : Option String)
    (h : (RepoBuilder.create_version version zipurl filename directory ziphash base).result
          = .ok ()) :
    ∃ hv, ziphash = some hv ∧
      (RepoBuilder.create_version version zipurl filename directory ziphash base).trace.filter
          RepoEffect.isWriteFile =
        [.writeFile "upstream.wrap" (upstream_templ directory zipurl filename hv)] ∧
      RepoEffect.indexAdd "upstream.wrap" ∈
        (RepoBuilder.create_version version zipurl filename directory ziphash base).trace ∧
      (RepoBuilder.create_version version zipurl filename directory ziphash base).trace.all
          (fun e => ! e.isCommit && ! e.isPush) = true := by
  cases ziphash with
  | none =>
      exact absurd h (by simp [RepoBuilder.create_version, RepoBuilder.get_hash])
  | some hv =>
      refine ⟨hv, rfl, ?_, ?_, ?_⟩ <;>
        simp [RepoBuilder.create_version, RepoEffect.isWriteFile,
          RepoEffect.isCommit, RepoEffect.isPush]

/-- Witness for C7 at a concrete call with an explicit hash. -/
theorem create_version_completes_witness :
    ∃ hv, (some "cafe" : Option String) = some hv ∧
      (RepoBuilder.create_version "1.0" "http://x/z.zip" "z.zip" "z-1.0"
          (some "cafe") none).trace.filter RepoEffect.isWriteFile =
        [.writeFile "upstream.wrap" (upstream_templ "z-1.0" "http://x/z.zip" "z.zip" hv)] ∧
      RepoEffect.indexAdd "upstream.wrap" ∈
        (RepoBuilder.create_version "1.0" "http://x/z.zip" "z.zip" "z-1.0"
          (some "cafe") none).trace ∧
      (RepoBuilder.create_version "1.0" "http://x/z.zip" "z.zip" "z-1.0"
          (some "cafe") none).trace.all (fun e => ! e.isCommit && ! e.isPush) = true :=
  create_version_completes "1.0" "http://x/z.zip" "z.zip" "z-1.0" (some "cafe") none rfl

/-- C9: `create_version` without a `ziphash` dies with the `NameError` on
`zipurl` raised inside `_get_hash`, before any effect: no hash is
computed and no `upstream.wrap` is written. -/
theorem create_version_no_hash (version zipurl filename directory : String)
    (base : Option String) :
    RepoBuilder.create_version version zipurl filename directory none base =
      { trace := [], result := .error (.nameError "zipurl") } := rfl

end Mesonwrap
